import Mathlib

/-!
Verification development for the pyGestalt nodes module (nodes.py).

The Python source is shallowly embedded: Python dicts become association
lists with in-place update semantics, Python class objects become values of
an inductive type with explicit identities, attribute assignment on a class
becomes a pointwise update of an attribute store, and object allocation
(threading.Event instances, classes created by type(...), templates created
by packets.emptyTemplate) draws fresh identifiers from a counter.
-/

namespace PyGestalt

/-- Python dict lookup on an association list (first matching key wins;
our update discipline keeps keys unique, mirroring a real dict). -/
def dictFind {κ ν : Type} [DecidableEq κ] : List (κ × ν) → κ → Option ν
  | [], _ => none
  | (k, v) :: rest, k' => if k = k' then some v else dictFind rest k'

/-- Python dict update `d.update({k: v})` for a single pair: replaces the
value in place when the key is present, otherwise appends the pair. -/
def dictUpdate {κ ν : Type} [DecidableEq κ] : List (κ × ν) → κ → ν → List (κ × ν)
  | [], k, v => [(k, v)]
  | (k', v') :: rest, k, v => if k' = k then (k, v) :: rest else (k', v') :: dictUpdate rest k v

@[simp]
theorem dictFind_nil {κ ν : Type} [DecidableEq κ] (k : κ) :
    dictFind ([] : List (κ × ν)) k = none := rfl

@[simp]
theorem dictFind_cons {κ ν : Type} [DecidableEq κ] (k k' : κ) (v : ν) (rest : List (κ × ν)) :
    dictFind ((k, v) :: rest) k' = if k = k' then some v else dictFind rest k' := rfl

theorem dictFind_dictUpdate {κ ν : Type} [DecidableEq κ]
    (d : List (κ × ν)) (k k' : κ) (v : ν) :
    dictFind (dictUpdate d k v) k' = if k = k' then some v else dictFind d k' := by
  induction d with
  | nil => simp [dictUpdate]
  | cons p rest ih =>
      obtain ⟨pk, pv⟩ := p
      by_cases hpk : pk = k
      · subst hpk
        by_cases hk : pk = k'
        · subst hk; simp [dictUpdate]
        · simp [dictUpdate, hk]
      · by_cases hk : pk = k'
        · subst hk
          have hkk : ¬ k = pk := fun h => hpk h.symm
          simp [dictUpdate, hpk, hkk]
        · simp [dictUpdate, hpk, hk, ih]

@[simp]
theorem dictFind_dictUpdate_self {κ ν : Type} [DecidableEq κ]
    (d : List (κ × ν)) (k : κ) (v : ν) :
    dictFind (dictUpdate d k v) k = some v := by
  simp [dictFind_dictUpdate]

theorem dictFind_dictUpdate_ne {κ ν : Type} [DecidableEq κ]
    (d : List (κ × ν)) (k k' : κ) (v : ν) (h : ¬ k = k') :
    dictFind (dictUpdate d k v) k' = dictFind d k' := by
  simp [dictFind_dictUpdate, h]

/-- When the key is absent, Python dict update appends the new pair. -/
theorem dictUpdate_of_not_mem {κ ν : Type} [DecidableEq κ]
    (d : List (κ × ν)) (k : κ) (v : ν) (h : ∀ p ∈ d, ¬ p.1 = k) :
    dictUpdate d k v = d ++ [(k, v)] := by
  induction d with
  | nil => rfl
  | cons p rest ih =>
      obtain ⟨pk, pv⟩ := p
      have hpk : ¬ pk = k := h (pk, pv) (List.mem_cons_self _ _)
      simp only [dictUpdate, hpk, if_false, List.cons_append]
      exact congrArg _ (ih fun q hq => h q (List.mem_cons_of_mem _ hq))

theorem dictFind_mem {κ ν : Type} [DecidableEq κ]
    (d : List (κ × ν)) (k : κ) (v : ν) (h : dictFind d k = some v) : (k, v) ∈ d := by
  induction d with
  | nil => simp [dictFind] at h
  | cons p rest ih =>
      obtain ⟨pk, pv⟩ := p
      by_cases hk : pk = k
      · subst hk
        simp [dictFind] at h
        subst h
        exact List.mem_cons_self _ _
      · simp [dictFind, hk] at h
        exact List.mem_cons_of_mem _ (ih h)

/-! ## The data model of the port binder (nodes.py, baseGestaltNode) -/

/-- A packet field, as produced by the packets module constructors
(packets.pString / packets.unsignedInt / packets.pList).  `width = none`
models a variable-width field such as pString with no length argument. -/
inductive FieldKind : Type
  | pString
  | unsignedInt
  | pList
deriving DecidableEq

structure PacketField : Type where
  fieldName : String
  kind : FieldKind
  width : Option Nat
deriving DecidableEq

/-- A packet template value: a name and an ordered field list. -/
structure Template : Type where
  tname : String
  fields : List PacketField
deriving DecidableEq

/-- A template object: a template value together with its object identity
(templates are Python objects; bindPort stores references to them). -/
structure TemplateObj : Type where
  tid : Nat
  tmpl : Template
deriving DecidableEq

/-- Modelled from the spec: packets.emptyTemplate (the packets module is not
part of this source file).  The spec requires an empty-template constructor
producing a template whose field list is empty ("the degenerate 'empty'
template carries zero fields").  The identity `tid` is the allocation id of
the freshly created template object. -/
def emptyTemplate (tid : Nat) (name : String) : TemplateObj :=
  { tid := tid, tmpl := { tname := name, fields := [] } }

/-- An actionObject class.  The two generic classes come from the core
module (core.genericOutboundActionObjectBlockOnReply and
core.genericInboundActionObject); `userClass` stands for any actionObject
class supplied by user code; `derivedClass` is a class created at runtime by
baseGestaltNode.addDerivedType via type(name, (base,), {}), identified by
its allocation id. -/
inductive HandlerClass : Type
  | genericOutboundActionObjectBlockOnReply
  | genericInboundActionObject
  | userClass (id : Nat) (name : String)
  | derivedClass (id : Nat)
deriving DecidableEq

/-- The __name__ of a class, used by addDerivedType when no explicit name is
given.  Derived classes are never re-derived in the source, so their name is
irrelevant to every claim and is left empty. -/
def className : HandlerClass → String
  | .genericOutboundActionObjectBlockOnReply => "genericOutboundActionObjectBlockOnReply"
  | .genericInboundActionObject => "genericInboundActionObject"
  | .userClass _ n => n
  | .derivedClass _ => ""

/-- The class attributes written by bindPort.  Each field is `none` when the
attribute is absent from the class __dict__.  `_baseActionObject_` stores a
Python value that may itself be None, hence the nested Option. -/
structure ActionAttrs : Type where
  port : Option Nat
  inboundPacketFlag : Option Nat
  outboundTemplate : Option TemplateObj
  inboundTemplate : Option TemplateObj
  baseActionObject : Option (Option HandlerClass)
deriving DecidableEq

/-- A class with no attribute assignments, as produced by type(name, bases, {}). -/
def emptyAttrs : ActionAttrs :=
  { port := none, inboundPacketFlag := none, outboundTemplate := none,
    inboundTemplate := none, baseActionObject := none }

/-- Global runtime state shared by all node instances: the allocation
counter (object identities for threading.Event instances, derived classes
and templates), the base class of each derived class, and the attribute
dictionaries of all classes. -/
structure World : Type where
  nextId : Nat
  derivedBase : List (Nat × HandlerClass)
  attrs : List (HandlerClass × ActionAttrs)
deriving DecidableEq

/-- Per node instance state: the instance __dict__ entries added by
addDerivedType, and the two port tables written by _init_ and bindPort. -/
structure NInstance : Type where
  instDict : List (String × HandlerClass)
  outboundPortTable : List (HandlerClass × Nat)
  inboundPortTable : List (Nat × HandlerClass)
deriving DecidableEq

def lookupAttrs (w : World) (c : HandlerClass) : ActionAttrs :=
  (dictFind w.attrs c).getD emptyAttrs

/-- Python class attribute assignment `c.attr = v`, as a read-modify-write
on the class attribute record. -/
def setAttr (w : World) (c : HandlerClass) (f : ActionAttrs → ActionAttrs) : World :=
  { w with attrs := dictUpdate w.attrs c (f (lookupAttrs w c)) }

/-- The base class a derived class inherits from.  The classes supplied from
outside carry none of the five bound attributes on their own bases, so the
chain stops there. -/
def classBaseOf (w : World) : HandlerClass → Option HandlerClass
  | .derivedClass i => dictFind w.derivedBase i
  | _ => none

/-- baseGestaltNode.addDerivedType: creates a new type with baseClass as the
base (type(typeName, (baseClass,), {})) and enters it into the instance
__dict__ under typeName.  Returns the updated world, the updated instance
and the new class. -/
def addDerivedType (w : World) (inst : NInstance) (baseClass : HandlerClass)
    (name : Option String) : World × NInstance × HandlerClass :=
  let typeName := match name with
    | some n => n
    | none => className baseClass
  let newType := HandlerClass.derivedClass w.nextId
  let w' : World :=
    { nextId := w.nextId + 1,
      derivedBase := dictUpdate w.derivedBase w.nextId baseClass,
      attrs := w.attrs }
  let inst' : NInstance := { inst with instDict := dictUpdate inst.instDict typeName newType }
  (w', inst', newType)

/-- baseGestaltNode.bindPort, translated statement by statement from the
source.  The four optional arguments mirror the Python defaults of None.
Note that in the branch generating a default inbound actionObject the
source assigns `_baseActionObject_ = inboundFunction`, i.e. the Python
value None, and this is reproduced verbatim here. -/
def bindPort (w : World) (inst : NInstance) (port : Nat)
    (outboundFunction : Option HandlerClass) (outboundTemplate : Option TemplateObj)
    (inboundFunction : Option HandlerClass) (inboundTemplate : Option TemplateObj) :
    World × NInstance :=
  -- inboundPacketFlag = threading.Event()
  let inboundPacketFlag := w.nextId
  let w := { w with nextId := w.nextId + 1 }
  -- GENERATE actionObject CLASSES
  let step1 : World × NInstance × HandlerClass :=
    match outboundFunction with
    | some f =>
        let r := addDerivedType w inst f none
        (setAttr r.1 r.2.2 (fun a => { a with baseActionObject := some (some f) }), r.2.1, r.2.2)
    | none =>
        let typeName := ("outboundActionObjectOnPort") ++ toString port
        let r := addDerivedType w inst .genericOutboundActionObjectBlockOnReply (some typeName)
        (setAttr r.1 r.2.2
          (fun a => { a with baseActionObject := some (some .genericOutboundActionObjectBlockOnReply) }),
         r.2.1, r.2.2)
  let w := step1.1
  let inst := step1.2.1
  let outboundActionObjectClass := step1.2.2
  let step2 : World × NInstance × HandlerClass :=
    match inboundFunction with
    | some f =>
        let r := addDerivedType w inst f none
        (setAttr r.1 r.2.2 (fun a => { a with baseActionObject := some (some f) }), r.2.1, r.2.2)
    | none =>
        let typeName := ("inboundActionObjectOnPort") ++ toString port
        let r := addDerivedType w inst .genericInboundActionObject (some typeName)
        -- source: inboundActionObjectClass._baseActionObject_ = inboundFunction
        -- (inboundFunction is None in this branch)
        (setAttr r.1 r.2.2 (fun a => { a with baseActionObject := some inboundFunction }),
         r.2.1, r.2.2)
  let w := step2.1
  let inst := step2.2.1
  let inboundActionObjectClass := step2.2.2
  -- GENERATE MISSING PACKET TEMPLATES
  let step3 : World × TemplateObj :=
    match outboundTemplate with
    | some t => (w, t)
    | none =>
        let templateName := ("outboundTemplateOnPort") ++ toString port
        ({ w with nextId := w.nextId + 1 }, emptyTemplate w.nextId templateName)
  let w := step3.1
  let outboundTemplate := step3.2
  let step4 : World × TemplateObj :=
    match inboundTemplate with
    | some t => (w, t)
    | none =>
        let templateName := ("inboundTemplateOnPort") ++ toString port
        ({ w with nextId := w.nextId + 1 }, emptyTemplate w.nextId templateName)
  let w := step4.1
  let inboundTemplate := step4.2
  -- STORE PARAMETERS IN actionObject CLASSES
  let w := setAttr w outboundActionObjectClass (fun a => { a with port := some port })
  let w := setAttr w inboundActionObjectClass (fun a => { a with port := some port })
  let w := setAttr w outboundActionObjectClass (fun a => { a with inboundPacketFlag := some inboundPacketFlag })
  let w := setAttr w inboundActionObjectClass (fun a => { a with inboundPacketFlag := some inboundPacketFlag })
  let w := setAttr w outboundActionObjectClass (fun a => { a with outboundTemplate := some outboundTemplate })
  let w := setAttr w inboundActionObjectClass (fun a => { a with outboundTemplate := some outboundTemplate })
  let w := setAttr w outboundActionObjectClass (fun a => { a with inboundTemplate := some inboundTemplate })
  let w := setAttr w inboundActionObjectClass (fun a => { a with inboundTemplate := some inboundTemplate })
  -- UPDATE VIRTUAL NODE PORT DICTIONARIES
  let inst := { inst with outboundPortTable := dictUpdate inst.outboundPortTable outboundActionObjectClass port }
  let inst := { inst with inboundPortTable := dictUpdate inst.inboundPortTable port inboundActionObjectClass }
  (w, inst)

/-- The world before any allocation. -/
def emptyWorld : World := { nextId := 0, derivedBase := [], attrs := [] }

/-- A node instance directly after _init_ created its empty port tables. -/
def emptyInstance : NInstance := { instDict := [], outboundPortTable := [], inboundPortTable := [] }

/-! ## Basic lemmas about the attribute store -/

@[simp]
theorem lookupAttrs_setAttr (w : World) (c : HandlerClass) (f : ActionAttrs → ActionAttrs)
    (c' : HandlerClass) :
    lookupAttrs (setAttr w c f) c' =
      if c = c' then f (lookupAttrs w c) else lookupAttrs w c' := by
  by_cases h : c = c'
  · subst h; simp [lookupAttrs, setAttr]
  · simp [lookupAttrs, setAttr, h, dictFind_dictUpdate_ne _ _ _ _ h]

@[simp]
theorem setAttr_nextId (w : World) (c : HandlerClass) (f : ActionAttrs → ActionAttrs) :
    (setAttr w c f).nextId = w.nextId := rfl

@[simp]
theorem setAttr_derivedBase (w : World) (c : HandlerClass) (f : ActionAttrs → ActionAttrs) :
    (setAttr w c f).derivedBase = w.derivedBase := rfl

@[simp]
theorem classBaseOf_setAttr (w : World) (c : HandlerClass) (f : ActionAttrs → ActionAttrs)
    (c' : HandlerClass) : classBaseOf (setAttr w c f) c' = classBaseOf w c' := by
  cases c' <;> simp [classBaseOf, setAttr]

/-- The base handler type actually used for the outbound derived class. -/
def outboundBase (outboundFunction : Option HandlerClass) : HandlerClass :=
  outboundFunction.getD .genericOutboundActionObjectBlockOnReply

/-- The base handler type actually used for the inbound derived class. -/
def inboundBase (inboundFunction : Option HandlerClass) : HandlerClass :=
  inboundFunction.getD .genericInboundActionObject

/-- The outbound template object stored by bindPort: the supplied one, or a
fresh empty template (allocation id w.nextId + 3 after the flag and the two
derived classes). -/
def resolvedOutboundTemplate (w : World) (port : Nat) (ot : Option TemplateObj) : TemplateObj :=
  match ot with
  | some t => t
  | none => emptyTemplate (w.nextId + 3) (("outboundTemplateOnPort") ++ toString port)

/-- The inbound template object stored by bindPort: the supplied one, or a
fresh empty template whose allocation id depends on whether the outbound
template was also generated. -/
def resolvedInboundTemplate (w : World) (port : Nat) (ot it : Option TemplateObj) : TemplateObj :=
  match it with
  | some t => t
  | none =>
      emptyTemplate (match ot with | some _ => w.nextId + 3 | none => w.nextId + 4)
        (("inboundTemplateOnPort") ++ toString port)

/-- Characterization of one bindPort call: the derived outbound class is the
fresh class with id w.nextId + 1, the derived inbound class has id
w.nextId + 2 (id w.nextId is the threading.Event flag), their five
attributes and base classes are as the source assigns them, and the two
port tables receive exactly one update each.  Note the inbound class's
_baseActionObject_ stores the raw inboundFunction argument (the source bug:
None when the argument was omitted). -/
theorem bindPort_spec (w : World) (inst : NInstance) (port : Nat)
    (of : Option HandlerClass) (ot : Option TemplateObj)
    (if_ : Option HandlerClass) (it : Option TemplateObj) :
    lookupAttrs (bindPort w inst port of ot if_ it).1 (.derivedClass (w.nextId + 1)) =
      { port := some port, inboundPacketFlag := some w.nextId,
        outboundTemplate := some (resolvedOutboundTemplate w port ot),
        inboundTemplate := some (resolvedInboundTemplate w port ot it),
        baseActionObject := some (some (outboundBase of)) } ∧
    lookupAttrs (bindPort w inst port of ot if_ it).1 (.derivedClass (w.nextId + 2)) =
      { port := some port, inboundPacketFlag := some w.nextId,
        outboundTemplate := some (resolvedOutboundTemplate w port ot),
        inboundTemplate := some (resolvedInboundTemplate w port ot it),
        baseActionObject := some if_ } ∧
    classBaseOf (bindPort w inst port of ot if_ it).1 (.derivedClass (w.nextId + 1)) =
      some (outboundBase of) ∧
    classBaseOf (bindPort w inst port of ot if_ it).1 (.derivedClass (w.nextId + 2)) =
      some (inboundBase if_) ∧
    (bindPort w inst port of ot if_ it).2.outboundPortTable =
      dictUpdate inst.outboundPortTable (.derivedClass (w.nextId + 1)) port ∧
    (bindPort w inst port of ot if_ it).2.inboundPortTable =
      dictUpdate inst.inboundPortTable port (.derivedClass (w.nextId + 2)) := by
  have e2 : w.nextId + 1 + 1 = w.nextId + 2 := rfl
  have e3 : w.nextId + 2 + 1 = w.nextId + 3 := rfl
  have e4 : w.nextId + 3 + 1 = w.nextId + 4 := rfl
  have d12 : (w.nextId + 1 = w.nextId + 2) = False := by simp
  have d21 : (w.nextId + 2 = w.nextId + 1) = False := by simp
  cases of <;> cases if_ <;> cases ot <;> cases it <;>
    simp [bindPort, addDerivedType, setAttr, lookupAttrs, classBaseOf, outboundBase,
      inboundBase, resolvedOutboundTemplate, resolvedInboundTemplate, dictFind_dictUpdate,
      emptyTemplate, e2, e3, e4, d12, d21]

/-! ## Frame properties of bindPort (per-instance isolation) -/

/-- The classes that exist before a call allocating fresh ids from
w.nextId onward: the shared base classes, and derived classes already
allocated. -/
def preexisting (w : World) : HandlerClass → Bool
  | .derivedClass i => decide (i < w.nextId)
  | _ => true

/-- Well-formed world: every derived-class record is about an already
allocated id and points to an already existing base class. -/
def worldWF (w : World) : Bool :=
  w.derivedBase.all (fun p => decide (p.1 < w.nextId) && preexisting w p.2)

/-- Python attribute lookup on a class falls back to its base classes; the
observable attributes of a class are its own entries merged with those
inherited along the base chain (`fuel` bounds the chain length). -/
def mergeAttrs (a b : ActionAttrs) : ActionAttrs :=
  { port := a.port.orElse (fun _ => b.port),
    inboundPacketFlag := a.inboundPacketFlag.orElse (fun _ => b.inboundPacketFlag),
    outboundTemplate := a.outboundTemplate.orElse (fun _ => b.outboundTemplate),
    inboundTemplate := a.inboundTemplate.orElse (fun _ => b.inboundTemplate),
    baseActionObject := a.baseActionObject.orElse (fun _ => b.baseActionObject) }

def observedAttrs (w : World) : Nat → HandlerClass → ActionAttrs
  | 0, c => lookupAttrs w c
  | fuel + 1, c =>
      match classBaseOf w c with
      | some b => mergeAttrs (lookupAttrs w c) (observedAttrs w fuel b)
      | none => lookupAttrs w c

theorem preexisting_ne_new (w : World) (c : HandlerClass) (m : Nat)
    (hc : preexisting w c = true) (hm : w.nextId ≤ m) : ¬ c = .derivedClass m := by
  cases c <;> simp [preexisting] at hc ⊢
  omega

theorem worldWF_base (w : World) (i : Nat) (b : HandlerClass)
    (hwf : worldWF w = true) (hb : dictFind w.derivedBase i = some b) :
    preexisting w b = true := by
  have hmem : (i, b) ∈ w.derivedBase := dictFind_mem _ _ _ hb
  have h := (List.all_eq_true.mp hwf) _ hmem
  simp only [Bool.and_eq_true] at h
  exact h.2

/-- bindPort writes class attributes only on the two freshly derived
classes: every other class's attribute dictionary is untouched. -/
theorem bindPort_attrs_frame (w : World) (inst : NInstance) (port : Nat)
    (of : Option HandlerClass) (ot : Option TemplateObj)
    (if_ : Option HandlerClass) (it : Option TemplateObj) (c : HandlerClass)
    (h1 : ¬ c = .derivedClass (w.nextId + 1)) (h2 : ¬ c = .derivedClass (w.nextId + 2)) :
    lookupAttrs (bindPort w inst port of ot if_ it).1 c = lookupAttrs w c := by
  have e2 : w.nextId + 1 + 1 = w.nextId + 2 := rfl
  have e3 : w.nextId + 2 + 1 = w.nextId + 3 := rfl
  have e4 : w.nextId + 3 + 1 = w.nextId + 4 := rfl
  have h1' : (HandlerClass.derivedClass (w.nextId + 1) = c) = False := by
    simp only [eq_iff_iff, iff_false]
    exact fun h => h1 h.symm
  have h2' : (HandlerClass.derivedClass (w.nextId + 2) = c) = False := by
    simp only [eq_iff_iff, iff_false]
    exact fun h => h2 h.symm
  cases of <;> cases if_ <;> cases ot <;> cases it <;>
    simp [bindPort, addDerivedType, setAttr, lookupAttrs, dictFind_dictUpdate,
      e2, e3, e4, h1', h2']

/-- bindPort records base classes only for the two fresh ids; the recorded
base of every previously allocated class is untouched. -/
theorem bindPort_derivedBase_frame (w : World) (inst : NInstance) (port : Nat)
    (of : Option HandlerClass) (ot : Option TemplateObj)
    (if_ : Option HandlerClass) (it : Option TemplateObj) (i : Nat)
    (h1 : ¬ i = w.nextId + 1) (h2 : ¬ i = w.nextId + 2) :
    dictFind (bindPort w inst port of ot if_ it).1.derivedBase i = dictFind w.derivedBase i := by
  have e2 : w.nextId + 1 + 1 = w.nextId + 2 := rfl
  have h1' : (w.nextId + 1 = i) = False := by
    simp only [eq_iff_iff, iff_false]
    exact fun h => h1 h.symm
  have h2' : (w.nextId + 2 = i) = False := by
    simp only [eq_iff_iff, iff_false]
    exact fun h => h2 h.symm
  cases of <;> cases if_ <;> cases ot <;> cases it <;>
    simp [bindPort, addDerivedType, setAttr, dictFind_dictUpdate, e2, h1', h2']

theorem bindPort_classBaseOf_frame (w : World) (inst : NInstance) (port : Nat)
    (of : Option HandlerClass) (ot : Option TemplateObj)
    (if_ : Option HandlerClass) (it : Option TemplateObj) (c : HandlerClass)
    (hc : preexisting w c = true) :
    classBaseOf (bindPort w inst port of ot if_ it).1 c = classBaseOf w c := by
  cases c with
  | derivedClass i =>
      simp only [preexisting, decide_eq_true_eq] at hc
      exact bindPort_derivedBase_frame w inst port of ot if_ it i
        (by omega) (by omega)
  | genericOutboundActionObjectBlockOnReply =>
      cases of <;> cases if_ <;> cases ot <;> cases it <;> rfl
  | genericInboundActionObject =>
      cases of <;> cases if_ <;> cases ot <;> cases it <;> rfl
  | userClass j n =>
      cases of <;> cases if_ <;> cases ot <;> cases it <;> rfl

theorem bindPort_observed_frame (w : World) (inst : NInstance) (port : Nat)
    (of : Option HandlerClass) (ot : Option TemplateObj)
    (if_ : Option HandlerClass) (it : Option TemplateObj)
    (hwf : worldWF w = true) :
    ∀ (fuel : Nat) (c : HandlerClass), preexisting w c = true →
      observedAttrs (bindPort w inst port of ot if_ it).1 fuel c = observedAttrs w fuel c := by
  intro fuel
  induction fuel with
  | zero =>
      intro c hc
      exact bindPort_attrs_frame w inst port of ot if_ it c
        (preexisting_ne_new w c _ hc (by omega)) (preexisting_ne_new w c _ hc (by omega))
  | succ fuel ih =>
      intro c hc
      have hlook := bindPort_attrs_frame w inst port of ot if_ it c
        (preexisting_ne_new w c _ hc (by omega)) (preexisting_ne_new w c _ hc (by omega))
      have hbase := bindPort_classBaseOf_frame w inst port of ot if_ it c hc
      simp only [observedAttrs, hbase, hlook]
      cases hb : classBaseOf w c with
      | none => rfl
      | some b =>
          have hbpre : preexisting w b = true := by
            cases c with
            | derivedClass i => exact worldWF_base w i b hwf hb
            | genericOutboundActionObjectBlockOnReply => simp [classBaseOf] at hb
            | genericInboundActionObject => simp [classBaseOf] at hb
            | userClass j n => simp [classBaseOf] at hb
          simp only [ih b hbpre]

/-! ## Demo runs used by witnesses and counterexamples -/

/-- A first bindPort call, made by some node instance on a fresh world. -/
def bind1 : World × NInstance := bindPort emptyWorld emptyInstance 1 none none none none

/-- A second bindPort call on the same port by the same instance. -/
def bind1again : World × NInstance := bindPort bind1.1 bind1.2 1 none none none none

/-- A bindPort call by a second, unrelated node instance in the same world. -/
def bind2other : World × NInstance := bindPort bind1.1 emptyInstance 2 none none none none

/-! ## Claim theorems about the port binder -/

/-- C2: bindPort stores the binding attributes (port number, reply flag,
outbound template, inbound template) only on the freshly derived handler
classes created by addDerivedType during this very call.  Every class that
existed before the call — in particular any shared base handler class, and
any derived handler class belonging to another node instance's earlier
binding — keeps its attribute dictionary, its recorded base class, and all
attributes observable through inheritance, unchanged. -/
theorem bindPort_instance_isolation (w : World) (inst : NInstance) (port : Nat)
    (of : Option HandlerClass) (ot : Option TemplateObj)
    (if_ : Option HandlerClass) (it : Option TemplateObj) (c : HandlerClass)
    (hwf : worldWF w = true) (hc : preexisting w c = true) :
    lookupAttrs (bindPort w inst port of ot if_ it).1 c = lookupAttrs w c ∧
    classBaseOf (bindPort w inst port of ot if_ it).1 c = classBaseOf w c ∧
    ∀ fuel, observedAttrs (bindPort w inst port of ot if_ it).1 fuel c = observedAttrs w fuel c :=
  ⟨bindPort_attrs_frame w inst port of ot if_ it c
      (preexisting_ne_new w c _ hc (by omega)) (preexisting_ne_new w c _ hc (by omega)),
   bindPort_classBaseOf_frame w inst port of ot if_ it c hc,
   fun fuel => bindPort_observed_frame w inst port of ot if_ it hwf fuel c hc⟩

/-- Witness for C2: instance A binds port 1 on a fresh world, creating its
derived outbound class (id 1); a second instance then binds port 2 against
the same shared generic bases, and A's derived class observes no change. -/
theorem bindPort_instance_isolation_witness :
    lookupAttrs bind2other.1 (.derivedClass 1) = lookupAttrs bind1.1 (.derivedClass 1) ∧
    classBaseOf bind2other.1 (.derivedClass 1) = classBaseOf bind1.1 (.derivedClass 1) ∧
    observedAttrs bind2other.1 1 (.derivedClass 1) = observedAttrs bind1.1 1 (.derivedClass 1) :=
  ⟨(bindPort_instance_isolation bind1.1 emptyInstance 2 none none none none
      (.derivedClass 1) (by decide) (by decide)).1,
   (bindPort_instance_isolation bind1.1 emptyInstance 2 none none none none
      (.derivedClass 1) (by decide) (by decide)).2.1,
   (bindPort_instance_isolation bind1.1 emptyInstance 2 none none none none
      (.derivedClass 1) (by decide) (by decide)).2.2 1⟩

/-- C3: when outboundFunction is omitted the outbound handler class is
derived from core.genericOutboundActionObjectBlockOnReply; when
inboundFunction is omitted the inbound handler class is derived from
core.genericInboundActionObject; when a template argument is omitted the
stored template is a freshly generated empty (zero-field) template.  The
model of bindPort is a total function, so omitting any combination of the
four optional arguments never produces an error. -/
theorem bindPort_default_generation (w : World) (inst : NInstance) (port : Nat) :
    (∀ ot if_ it, classBaseOf (bindPort w inst port none ot if_ it).1
        (.derivedClass (w.nextId + 1)) = some .genericOutboundActionObjectBlockOnReply) ∧
    (∀ of ot it, classBaseOf (bindPort w inst port of ot none it).1
        (.derivedClass (w.nextId + 2)) = some .genericInboundActionObject) ∧
    (∀ of if_ it, (lookupAttrs (bindPort w inst port of none if_ it).1
        (.derivedClass (w.nextId + 1))).outboundTemplate =
          some (resolvedOutboundTemplate w port none)) ∧
    (∀ of ot if_, (lookupAttrs (bindPort w inst port of ot if_ none).1
        (.derivedClass (w.nextId + 1))).inboundTemplate =
          some (resolvedInboundTemplate w port ot none)) ∧
    (resolvedOutboundTemplate w port none).tmpl.fields = [] ∧
    (∀ ot, (resolvedInboundTemplate w port ot none).tmpl.fields = []) := by
  refine ⟨?_, ?_, ?_, ?_, rfl, ?_⟩
  · intro ot if_ it
    exact (bindPort_spec w inst port none ot if_ it).2.2.1
  · intro of ot it
    exact (bindPort_spec w inst port of ot none it).2.2.2.1
  · intro of if_ it
    rw [(bindPort_spec w inst port of none if_ it).1]
  · intro of ot if_
    rw [(bindPort_spec w inst port of ot if_ none).1]
  · intro ot
    cases ot <;> rfl

/-- C5 evidence: with inboundFunction omitted, the derived inbound class
actually inherits from core.genericInboundActionObject, but the source
stores `_baseActionObject_ = inboundFunction`, i.e. the Python value None,
on it — the recorded base is not the actual base class. -/
theorem bindPort_baseActionObject_mismatch :
    classBaseOf bind1.1 (.derivedClass 2) = some .genericInboundActionObject ∧
    (lookupAttrs bind1.1 (.derivedClass 2)).baseActionObject = some none ∧
    ¬ (lookupAttrs bind1.1 (.derivedClass 2)).baseActionObject =
        some (some .genericInboundActionObject) := by
  refine ⟨?_, ?_, ?_⟩ <;> decide

/-- C10: the derived outbound class (id w.nextId + 1) and the derived
inbound class (id w.nextId + 2) produced by one bindPort call carry
pairwise identical binding attributes: the same _port_, the same single
threading.Event allocated at the start of the call (id w.nextId), the same
outbound template object and the same inbound template object. -/
theorem bindPort_pair_consistency (w : World) (inst : NInstance) (port : Nat)
    (of : Option HandlerClass) (ot : Option TemplateObj)
    (if_ : Option HandlerClass) (it : Option TemplateObj) :
    (lookupAttrs (bindPort w inst port of ot if_ it).1 (.derivedClass (w.nextId + 1))).port =
      some port ∧
    (lookupAttrs (bindPort w inst port of ot if_ it).1 (.derivedClass (w.nextId + 2))).port =
      some port ∧
    (lookupAttrs (bindPort w inst port of ot if_ it).1
        (.derivedClass (w.nextId + 1))).inboundPacketFlag = some w.nextId ∧
    (lookupAttrs (bindPort w inst port of ot if_ it).1
        (.derivedClass (w.nextId + 2))).inboundPacketFlag = some w.nextId ∧
    (lookupAttrs (bindPort w inst port of ot if_ it).1
        (.derivedClass (w.nextId + 1))).outboundTemplate =
      some (resolvedOutboundTemplate w port ot) ∧
    (lookupAttrs (bindPort w inst port of ot if_ it).1
        (.derivedClass (w.nextId + 2))).outboundTemplate =
      some (resolvedOutboundTemplate w port ot) ∧
    (lookupAttrs (bindPort w inst port of ot if_ it).1
        (.derivedClass (w.nextId + 1))).inboundTemplate =
      some (resolvedInboundTemplate w port ot it) ∧
    (lookupAttrs (bindPort w inst port of ot if_ it).1
        (.derivedClass (w.nextId + 2))).inboundTemplate =
      some (resolvedInboundTemplate w port ot it) := by
  have h := bindPort_spec w inst port of ot if_ it
  rw [h.1, h.2.1]
  exact ⟨rfl, rfl, rfl, rfl, rfl, rfl, rfl, rfl⟩

theorem countP_key_eq_zero {κ ν : Type} [DecidableEq κ] (d : List (κ × ν)) (k : κ)
    (h : ∀ p ∈ d, ¬ p.1 = k) : d.countP (fun q => decide (q.1 = k)) = 0 := by
  induction d with
  | nil => rfl
  | cons p rest ih =>
      have hp := h p (List.mem_cons_self _ _)
      have ih' := ih fun q hq => h q (List.mem_cons_of_mem _ hq)
      simp [List.countP_cons, hp, ih']

/-- In a table with unique keys (a Python dict), after an update the key has
exactly one entry. -/
theorem countP_dictUpdate_key {κ ν : Type} [DecidableEq κ] (d : List (κ × ν)) (k : κ) (v : ν)
    (hnd : (d.map Prod.fst).Nodup) :
    (dictUpdate d k v).countP (fun q => decide (q.1 = k)) = 1 := by
  induction d with
  | nil => simp [dictUpdate]
  | cons p rest ih =>
      obtain ⟨pk, pv⟩ := p
      rw [List.map_cons, List.nodup_cons] at hnd
      by_cases hpk : pk = k
      · subst hpk
        have hzero : rest.countP (fun q => decide (q.1 = pk)) = 0 := by
          refine countP_key_eq_zero rest pk fun q hq hq1 => hnd.1 ?_
          exact List.mem_map.mpr ⟨q, hq, hq1⟩
        simp [dictUpdate, List.countP_cons, hzero]
      · have ih' := ih hnd.2
        simp [dictUpdate, hpk, List.countP_cons, ih']

/-- C6: after bindPort(port, ...), the outbound table gains exactly one new
entry, mapping the freshly derived outbound class to port (all prior
entries untouched, in place), the inbound table maps port to the freshly
derived inbound class and holds exactly one entry for that port, and the
entry of every other port (and of every other outbound handler class) is
unchanged. -/
theorem bindPort_table_effects (w : World) (inst : NInstance) (port : Nat)
    (of : Option HandlerClass) (ot : Option TemplateObj)
    (if_ : Option HandlerClass) (it : Option TemplateObj)
    (hfresh : ∀ p ∈ inst.outboundPortTable, preexisting w p.1 = true)
    (hnd : (inst.inboundPortTable.map Prod.fst).Nodup) :
    (bindPort w inst port of ot if_ it).2.outboundPortTable =
      inst.outboundPortTable ++ [(.derivedClass (w.nextId + 1), port)] ∧
    dictFind (bindPort w inst port of ot if_ it).2.outboundPortTable
      (.derivedClass (w.nextId + 1)) = some port ∧
    dictFind (bindPort w inst port of ot if_ it).2.inboundPortTable port =
      some (.derivedClass (w.nextId + 2)) ∧
    (∀ p, ¬ p = port → dictFind (bindPort w inst port of ot if_ it).2.inboundPortTable p =
      dictFind inst.inboundPortTable p) ∧
    (∀ c, ¬ c = .derivedClass (w.nextId + 1) →
      dictFind (bindPort w inst port of ot if_ it).2.outboundPortTable c =
        dictFind inst.outboundPortTable c) ∧
    (bindPort w inst port of ot if_ it).2.inboundPortTable.countP
      (fun q => decide (q.1 = port)) = 1 := by
  have h := bindPort_spec w inst port of ot if_ it
  have hofresh : ∀ p ∈ inst.outboundPortTable, ¬ p.1 = .derivedClass (w.nextId + 1) :=
    fun p hp => preexisting_ne_new w p.1 _ (hfresh p hp) (by omega)
  refine ⟨?_, ?_, ?_, ?_, ?_, ?_⟩
  · rw [h.2.2.2.2.1]
    exact dictUpdate_of_not_mem _ _ _ hofresh
  · rw [h.2.2.2.2.1]
    exact dictFind_dictUpdate_self _ _ _
  · rw [h.2.2.2.2.2]
    exact dictFind_dictUpdate_self _ _ _
  · intro p hp
    rw [h.2.2.2.2.2]
    exact dictFind_dictUpdate_ne _ _ _ _ fun he => hp he.symm
  · intro c hc
    rw [h.2.2.2.2.1]
    exact dictFind_dictUpdate_ne _ _ _ _ fun he => hc he.symm
  · rw [h.2.2.2.2.2]
    exact countP_dictUpdate_key _ _ _ hnd

/-- A same-instance follow-up binding on a fresh port. -/
def bindNext : World × NInstance := bindPort bind1.1 bind1.2 2 none none none none

/-- Witness for C6: the instance that bound port 1 binds port 2; the tables
change exactly as described. -/
theorem bindPort_table_effects_witness :
    bindNext.2.outboundPortTable =
      [(.derivedClass 1, 1), (.derivedClass 6, 2)] ∧
    dictFind bindNext.2.inboundPortTable 2 = some (.derivedClass 7) ∧
    dictFind bindNext.2.inboundPortTable 1 = dictFind bind1.2.inboundPortTable 1 := by
  have h := bindPort_table_effects bind1.1 bind1.2 2 none none none none
    (by decide) (by decide)
  unfold bindNext
  refine ⟨?_, ?_, h.2.2.2.1 1 (by decide)⟩
  · rw [h.1]
    decide
  · exact h.2.2.1

/-- C4 counterexample: the same instance binds port 1 twice.  The second
call is not rejected and surfaces nothing to the caller — bindPort in the
source has no error path at all — and it silently replaces the inbound
binding of port 1 (the first derived inbound class, id 2, disappears from
the table in favour of id 7) while quietly appending a second outbound
entry for the same port. -/
theorem bindPort_double_bind_silent :
    bind1.2.inboundPortTable = [(1, .derivedClass 2)] ∧
    bind1again.2.inboundPortTable = [(1, .derivedClass 7)] ∧
    bind1again.2.outboundPortTable = [(.derivedClass 1, 1), (.derivedClass 6, 1)] := by
  refine ⟨?_, ?_, ?_⟩ <;> decide

/-- C4 amended: binding a port that is already bound on the instance is
accepted exactly like a first binding, with no rejection and no signal to
the caller: the inbound-table entry for the port is silently overwritten
with the new derived inbound class, and a new outbound-table entry is
added while the first call's outbound entry remains. -/
theorem bindPort_rebind_silent (w : World) (inst : NInstance) (port : Nat)
    (of : Option HandlerClass) (ot : Option TemplateObj)
    (if_ : Option HandlerClass) (it : Option TemplateObj)
    (_hbound : ¬ dictFind inst.inboundPortTable port = none) :
    dictFind (bindPort w inst port of ot if_ it).2.inboundPortTable port =
      some (.derivedClass (w.nextId + 2)) ∧
    (∀ p, ¬ p = port → dictFind (bindPort w inst port of ot if_ it).2.inboundPortTable p =
      dictFind inst.inboundPortTable p) ∧
    (bindPort w inst port of ot if_ it).2.outboundPortTable =
      dictUpdate inst.outboundPortTable (.derivedClass (w.nextId + 1)) port := by
  have h := bindPort_spec w inst port of ot if_ it
  refine ⟨?_, ?_, h.2.2.2.2.1⟩
  · rw [h.2.2.2.2.2]
    exact dictFind_dictUpdate_self _ _ _
  · intro p hp
    rw [h.2.2.2.2.2]
    exact dictFind_dictUpdate_ne _ _ _ _ fun he => hp he.symm

/-- Witness for the amended C4: the double binding of port 1. -/
theorem bindPort_rebind_silent_witness :
    dictFind bind1again.2.inboundPortTable 1 = some (.derivedClass 7) ∧
    bind1again.2.outboundPortTable =
      dictUpdate bind1.2.outboundPortTable (.derivedClass 6) 1 :=
  ⟨(bindPort_rebind_silent bind1.1 bind1.2 1 none none none none (by decide)).1,
   (bindPort_rebind_silent bind1.1 bind1.2 1 none none none none (by decide)).2.2⟩

/-! ## The staged initialization machinery (baseVirtualNode, baseGestaltNode)

A node type's method resolution order is modelled as the list
mro()[0..k] of classes from the concrete type down to baseGestaltNode
(the last class whose _recursiveInit_ is the recursive one); the empty
list stands for reaching baseVirtualNode, whose _recursiveInit_ is the
dummy pass.  Each class contributes the four optional stage methods it
defines directly in its own __dict__; an absent entry models
`'stage' not in baseClass.__dict__`. -/

structure NodeClass (σ α : Type) : Type where
  init : Option (α → σ → σ)
  initPackets : Option (σ → σ)
  initPorts : Option (σ → σ)
  onLoad : Option (σ → σ)

def runStage {σ : Type} : Option (σ → σ) → σ → σ
  | some f, s => f s
  | none, s => s

/-- The four conditional stage calls baseGestaltNode._recursiveInit_ makes
for the class at one recursion depth, in the fixed source order
init, initPackets, initPorts, onLoad. -/
def runLevel {σ α : Type} (c : NodeClass σ α) (args : α) (s : σ) : σ :=
  runStage c.onLoad (runStage c.initPorts (runStage c.initPackets
    (match c.init with | some f => f args s | none => s)))

/-- baseGestaltNode._recursiveInit_: first recurse into the parent class
(the tail of the method resolution order), then run the stages the class at
the current depth defines directly.  The empty list is the call landing on
baseVirtualNode._recursiveInit_, which does nothing. -/
def recursiveInit {σ α : Type} (levels : List (NodeClass σ α)) (args : α) (s : σ) : σ :=
  match levels with
  | [] => s
  | c :: rest => runLevel c args (recursiveInit rest args s)

theorem runLevel_eq_runStage {σ α : Type} (c : NodeClass σ α) (args : α) (s : σ) :
    runLevel c args s =
      runStage c.onLoad (runStage c.initPorts (runStage c.initPackets
        (runStage (Option.map (fun f => f args) c.init) s))) := by
  cases h : c.init <;> simp [runLevel, runStage, h]

/-- baseVirtualNode.__init__: the construction arguments (args and kwargs
folded into one value of type α) are stored for later replay by _init_. -/
structure VirtualNode (α : Type) : Type where
  initArgs : α

def baseVirtualNode_init {α : Type} (args : α) : VirtualNode α :=
  { initArgs := args }

inductive StageTag : Type
  | initStage
  | initPacketsStage
  | initPortsStage
  | onLoadStage
deriving DecidableEq

/-- Which of the four stage methods one inheritance level defines directly
in its own class __dict__. -/
structure LevelShape : Type where
  hasInit : Bool
  hasInitPackets : Bool
  hasInitPorts : Bool
  hasOnLoad : Bool
deriving DecidableEq

def definesStage (sh : LevelShape) : StageTag → Bool
  | .initStage => sh.hasInit
  | .initPacketsStage => sh.hasInitPackets
  | .initPortsStage => sh.hasInitPorts
  | .onLoadStage => sh.hasOnLoad

/-! ### Instrumentation for the execution-order claims: every stage body
appends an event to a trace. -/

def levelStages (label : Nat) (sh : LevelShape) : List (Nat × StageTag) :=
  (if sh.hasInit then [(label, StageTag.initStage)] else []) ++
  (if sh.hasInitPackets then [(label, StageTag.initPacketsStage)] else []) ++
  (if sh.hasInitPorts then [(label, StageTag.initPortsStage)] else []) ++
  (if sh.hasOnLoad then [(label, StageTag.onLoadStage)] else [])

def traceClass {α : Type} (label : Nat) (sh : LevelShape) :
    NodeClass (List (Nat × StageTag)) α :=
  { init := if sh.hasInit then some (fun _ tr => tr ++ [(label, StageTag.initStage)]) else none,
    initPackets :=
      if sh.hasInitPackets then some (fun tr => tr ++ [(label, StageTag.initPacketsStage)]) else none,
    initPorts :=
      if sh.hasInitPorts then some (fun tr => tr ++ [(label, StageTag.initPortsStage)]) else none,
    onLoad :=
      if sh.hasOnLoad then some (fun tr => tr ++ [(label, StageTag.onLoadStage)]) else none }

def traceLevels {α : Type} (ls : List (Nat × LevelShape)) :
    List (NodeClass (List (Nat × StageTag)) α) :=
  ls.map fun p => traceClass p.1 p.2

/-- The reference trace: levels in most-base-first order (the reverse of
the method resolution order), each contributing its directly defined
stages in the order init, initPackets, initPorts, onLoad. -/
def specTrace : List (Nat × LevelShape) → List (Nat × StageTag)
  | [] => []
  | p :: rest => specTrace rest ++ levelStages p.1 p.2

theorem traceClass_runLevel {α : Type} (label : Nat) (sh : LevelShape) (args : α)
    (tr : List (Nat × StageTag)) :
    runLevel (traceClass (α := α) label sh) args tr = tr ++ levelStages label sh := by
  obtain ⟨b1, b2, b3, b4⟩ := sh
  cases b1 <;> cases b2 <;> cases b3 <;> cases b4 <;>
    simp [runLevel, runStage, traceClass, levelStages]

theorem recursiveInit_traceLevels {α : Type} (ls : List (Nat × LevelShape)) (args : α)
    (tr : List (Nat × StageTag)) :
    recursiveInit (traceLevels (α := α) ls) args tr = tr ++ specTrace ls := by
  induction ls generalizing tr with
  | nil => simp [recursiveInit, traceLevels, specTrace]
  | cons p rest ih =>
      simp only [traceLevels, List.map_cons, recursiveInit, specTrace]
      rw [show recursiveInit (List.map (fun p => traceClass p.1 p.2) rest) args tr
            = recursiveInit (traceLevels (α := α) rest) args tr from rfl, ih,
        traceClass_runLevel, List.append_assoc]

theorem mem_levelStages (l : Nat) (st : StageTag) (l' : Nat) (sh : LevelShape) :
    (l, st) ∈ levelStages l' sh ↔ (l = l' ∧ definesStage sh st = true) := by
  obtain ⟨b1, b2, b3, b4⟩ := sh
  cases b1 <;> cases b2 <;> cases b3 <;> cases b4 <;> cases st <;>
    simp [levelStages, definesStage]

theorem mem_specTrace (ls : List (Nat × LevelShape)) (l : Nat) (st : StageTag) :
    (l, st) ∈ specTrace ls ↔ ∃ sh, (l, sh) ∈ ls ∧ definesStage sh st = true := by
  induction ls with
  | nil => simp [specTrace]
  | cons p rest ih =>
      obtain ⟨pl, psh⟩ := p
      simp only [specTrace, List.mem_append, ih, mem_levelStages, List.mem_cons]
      constructor
      · rintro (⟨sh, hm, hd⟩ | ⟨rfl, hd⟩)
        · exact ⟨sh, Or.inr hm, hd⟩
        · exact ⟨psh, Or.inl rfl, hd⟩
      · rintro ⟨sh, hm | hm, hd⟩
        · obtain ⟨rfl, rfl⟩ := Prod.mk.injEq .. ▸ hm
          exact Or.inr ⟨rfl, hd⟩
        · exact Or.inl ⟨sh, hm, hd⟩

theorem count_levelStages (l : Nat) (st : StageTag) (l' : Nat) (sh : LevelShape) :
    (levelStages l' sh).count (l, st) ≤ 1 := by
  obtain ⟨b1, b2, b3, b4⟩ := sh
  cases b1 <;> cases b2 <;> cases b3 <;> cases b4 <;> cases st <;>
    simp [levelStages, List.count_cons, List.count_nil, Prod.mk.injEq] <;>
    split_ifs <;> simp_all

theorem count_specTrace (ls : List (Nat × LevelShape)) (l : Nat) (st : StageTag)
    (hnd : (ls.map Prod.fst).Nodup) : (specTrace ls).count (l, st) ≤ 1 := by
  induction ls with
  | nil => simp [specTrace]
  | cons p rest ih =>
      obtain ⟨pl, psh⟩ := p
      rw [List.map_cons, List.nodup_cons] at hnd
      rw [specTrace, List.count_append]
      by_cases hl : l = pl
      · subst hl
        have hz : (specTrace rest).count (l, st) = 0 := by
          rw [List.count_eq_zero]
          intro hm
          obtain ⟨sh, hsh, _⟩ := (mem_specTrace rest l st).mp hm
          exact hnd.1 (List.mem_map.mpr ⟨(l, sh), hsh, rfl⟩)
        rw [hz]
        simpa using count_levelStages l st l psh
      · have hz : (levelStages pl psh).count (l, st) = 0 := by
          rw [List.count_eq_zero]
          intro hm
          exact hl ((mem_levelStages l st pl psh).mp hm).1
        rw [hz]
        simpa using ih hnd.2

/-- C1: for any method resolution order (a labelled list of levels, most
derived first) the recursive initializer produces exactly the reference
trace: levels run from most base to most derived, the four stages of one
level complete, in the fixed order init, initPackets, initPorts, onLoad,
before any stage of the next more derived level, a stage event for a level
occurs precisely when that level defines the stage directly in its own
class __dict__, and (for distinct levels) no stage of a level ever runs
twice. -/
theorem lifecycle_stage_order {α : Type} (ls : List (Nat × LevelShape)) (args : α)
    (tr : List (Nat × StageTag)) :
    recursiveInit (traceLevels (α := α) ls) args tr = tr ++ specTrace ls ∧
    (∀ l st, (l, st) ∈ specTrace ls ↔ ∃ sh, (l, sh) ∈ ls ∧ definesStage sh st = true) ∧
    ((ls.map Prod.fst).Nodup → ∀ l st, (specTrace ls).count (l, st) ≤ 1) :=
  ⟨recursiveInit_traceLevels ls args tr,
   fun l st => mem_specTrace ls l st,
   fun hnd l st => count_specTrace ls l st hnd⟩

/-- A two-level demo hierarchy: the derived level (label 0) defines init
and initPorts; the base level (label 1) defines all four stages. -/
def demoShapes : List (Nat × LevelShape) :=
  [(0, { hasInit := true, hasInitPackets := false, hasInitPorts := true, hasOnLoad := false }),
   (1, { hasInit := true, hasInitPackets := true, hasInitPorts := true, hasOnLoad := true })]

/-- Witness for C1: on the demo hierarchy the instrumented run yields the
base level's four stages followed by the derived level's two defined
stages, and with the levels distinct no event repeats. -/
theorem lifecycle_stage_order_witness :
    recursiveInit (traceLevels (α := Nat) demoShapes) 0 [] =
      [] ++ specTrace demoShapes ∧
    (specTrace demoShapes).count (1, StageTag.initStage) ≤ 1 :=
  ⟨(lifecycle_stage_order demoShapes 0 []).1,
   (lifecycle_stage_order (α := Nat) demoShapes 0 []).2.2 (by decide) 1 StageTag.initStage⟩

/-! ### Instrumentation for the argument-replay claim: init logs the
arguments it receives, the other stages leave the log alone. -/

def argsClass {α : Type} (label : Nat) (sh : LevelShape) : NodeClass (List (Nat × α)) α :=
  { init := if sh.hasInit then some (fun args tr => tr ++ [(label, args)]) else none,
    initPackets := if sh.hasInitPackets then some (fun tr => tr) else none,
    initPorts := if sh.hasInitPorts then some (fun tr => tr) else none,
    onLoad := if sh.hasOnLoad then some (fun tr => tr) else none }

def argsLevels {α : Type} (ls : List (Nat × LevelShape)) : List (NodeClass (List (Nat × α)) α) :=
  ls.map fun p => argsClass p.1 p.2

/-- The reference argument log: every level defining init, in base-to-
derived order, paired with the one argument tuple. -/
def specArgLog {α : Type} (args : α) : List (Nat × LevelShape) → List (Nat × α)
  | [] => []
  | p :: rest => specArgLog args rest ++ (if p.2.hasInit then [(p.1, args)] else [])

theorem argsClass_runLevel {α : Type} (label : Nat) (sh : LevelShape) (args : α)
    (tr : List (Nat × α)) :
    runLevel (argsClass label sh) args tr =
      tr ++ (if sh.hasInit then [(label, args)] else []) := by
  obtain ⟨b1, b2, b3, b4⟩ := sh
  cases b1 <;> cases b2 <;> cases b3 <;> cases b4 <;>
    simp [runLevel, runStage, argsClass]

theorem recursiveInit_argsLevels {α : Type} (ls : List (Nat × LevelShape)) (args : α)
    (tr : List (Nat × α)) :
    recursiveInit (argsLevels ls) args tr = tr ++ specArgLog args ls := by
  induction ls generalizing tr with
  | nil => simp [recursiveInit, argsLevels, specArgLog]
  | cons p rest ih =>
      simp only [argsLevels, List.map_cons, recursiveInit, specArgLog]
      rw [show recursiveInit (List.map (fun p => argsClass p.1 p.2) rest) args tr
            = recursiveInit (argsLevels rest) args tr from rfl, ih,
        argsClass_runLevel, List.append_assoc]

theorem mem_specArgLog {α : Type} (args : α) (ls : List (Nat × LevelShape)) (l : Nat) (a : α)
    (h : (l, a) ∈ specArgLog args ls) : a = args := by
  induction ls with
  | nil => simp [specArgLog] at h
  | cons p rest ih =>
      rw [specArgLog, List.mem_append] at h
      rcases h with h | h
      · exact ih h
      · by_cases hb : p.2.hasInit <;> simp [hb] at h
        exact h.2

/-- C7: replaying the construction-time arguments stored by
baseVirtualNode.__init__ through the recursive initializer hands every
level that directly defines init exactly that argument tuple — the same,
unchanged tuple at all defining levels, with no per-level partitioning —
and the levels that do not define init receive nothing. -/
theorem init_receives_constructor_args {α : Type} (ls : List (Nat × LevelShape)) (args : α)
    (tr : List (Nat × α)) :
    recursiveInit (argsLevels ls) (baseVirtualNode_init args).initArgs tr =
      tr ++ specArgLog args ls ∧
    (∀ l a, (l, a) ∈ specArgLog args ls → a = args) ∧
    (∀ l a, (l, a) ∈ specArgLog args ls ↔ ∃ sh, (l, sh) ∈ ls ∧ sh.hasInit = true ∧ a = args) := by
  refine ⟨recursiveInit_argsLevels ls args tr, fun l a => mem_specArgLog args ls l a, ?_⟩
  intro l a
  induction ls with
  | nil => simp [specArgLog]
  | cons p rest ih =>
      obtain ⟨pl, psh⟩ := p
      rw [specArgLog, List.mem_append]
      constructor
      · rintro (h | h)
        · obtain ⟨sh, hm, hd⟩ := ih.mp h
          exact ⟨sh, List.mem_cons_of_mem _ hm, hd⟩
        · by_cases hb : psh.hasInit <;> simp [hb] at h
          obtain ⟨rfl, rfl⟩ := h
          exact ⟨psh, List.mem_cons_self _ _, hb, rfl⟩
      · rintro ⟨sh, hm, hi, rfl⟩
        rcases List.mem_cons.mp hm with hm | hm
        · obtain ⟨rfl, rfl⟩ := Prod.mk.injEq .. ▸ hm
          right
          simp [hi]
        · exact Or.inl (ih.mpr ⟨sh, hm, hi, rfl⟩)

/-- Witness for C7: on the demo hierarchy with argument tuple 42, both
init-defining levels log exactly 42. -/
theorem init_receives_constructor_args_witness :
    recursiveInit (argsLevels demoShapes) (baseVirtualNode_init 42).initArgs [] =
      [] ++ specArgLog 42 demoShapes ∧
    ((0, 42) ∈ specArgLog 42 demoShapes ↔
      ∃ sh, (0, sh) ∈ demoShapes ∧ sh.hasInit = true ∧ 42 = 42) ∧
    (42 : Nat) = 42 :=
  ⟨(init_receives_constructor_args demoShapes 42 []).1,
   (init_receives_constructor_args demoShapes 42 []).2.2 0 42,
   (init_receives_constructor_args demoShapes 42 []).2.1 0 42 (by decide)⟩

/-! ### Instrumentation for the table-creation claim: the node state seen
by the stages, with every stage recording the port tables it observes. -/

structure ObsEvent : Type where
  level : Nat
  stage : StageTag
  outTable : List (HandlerClass × Nat)
  inTable : List (Nat × HandlerClass)
deriving DecidableEq

structure ObsState : Type where
  inst : NInstance
  obs : List ObsEvent
deriving DecidableEq

/-- A stage body that only records the port tables it currently observes. -/
def obsEventAt (label : Nat) (st : StageTag) (s : ObsState) : ObsState :=
  { s with obs := s.obs ++
      [{ level := label, stage := st, outTable := s.inst.outboundPortTable,
         inTable := s.inst.inboundPortTable }] }

@[simp]
theorem obsEventAt_inst (label : Nat) (st : StageTag) (s : ObsState) :
    (obsEventAt label st s).inst = s.inst := rfl

def obsClass {α : Type} (label : Nat) (sh : LevelShape) : NodeClass ObsState α :=
  { init := if sh.hasInit then some (fun _ s => obsEventAt label StageTag.initStage s) else none,
    initPackets :=
      if sh.hasInitPackets then some (obsEventAt label StageTag.initPacketsStage) else none,
    initPorts := if sh.hasInitPorts then some (obsEventAt label StageTag.initPortsStage) else none,
    onLoad := if sh.hasOnLoad then some (obsEventAt label StageTag.onLoadStage) else none }

def obsLevels {α : Type} (ls : List (Nat × LevelShape)) : List (NodeClass ObsState α) :=
  ls.map fun p => obsClass p.1 p.2

/-- baseGestaltNode._init_: creates the two (empty) port table dicts on the
instance and only then enters the recursion at depth 0 with the stored
construction arguments. -/
def initEntry {α : Type} (levels : List (NodeClass ObsState α)) (node : VirtualNode α)
    (s : ObsState) : ObsState :=
  recursiveInit levels node.initArgs
    { s with inst := { s.inst with outboundPortTable := [], inboundPortTable := [] } }

/-- A state transformer that never touches the instance and only appends
observations of the current instance's tables. -/
def ObsPreserving (f : ObsState → ObsState) : Prop :=
  ∀ s, (f s).inst = s.inst ∧
    ∀ e ∈ (f s).obs, e ∈ s.obs ∨
      (e.outTable = s.inst.outboundPortTable ∧ e.inTable = s.inst.inboundPortTable)

theorem obsPreserving_id : ObsPreserving (fun s => s) :=
  fun _ => ⟨rfl, fun _ he => Or.inl he⟩

theorem obsPreserving_obsEventAt (label : Nat) (st : StageTag) :
    ObsPreserving (obsEventAt label st) := by
  intro s
  refine ⟨rfl, fun e he => ?_⟩
  rw [obsEventAt] at he
  simp only [List.mem_append, List.mem_singleton] at he
  rcases he with he | he
  · exact Or.inl he
  · subst he
    exact Or.inr ⟨rfl, rfl⟩

theorem obsPreserving_comp {f g : ObsState → ObsState}
    (hf : ObsPreserving f) (hg : ObsPreserving g) : ObsPreserving (fun s => g (f s)) := by
  intro s
  refine ⟨((hg (f s)).1).trans (hf s).1, fun e he => ?_⟩
  rcases (hg (f s)).2 e he with he' | he'
  · exact (hf s).2 e he'
  · rw [(hf s).1] at he'
    exact Or.inr he'

theorem obsPreserving_runStage_opt (b : Bool) (label : Nat) (st : StageTag) :
    ObsPreserving (runStage (if b then some (obsEventAt label st) else none)) := by
  cases b
  · simpa [runStage] using obsPreserving_id
  · simpa [runStage] using obsPreserving_obsEventAt label st

theorem obsPreserving_runLevel {α : Type} (label : Nat) (sh : LevelShape) (args : α) :
    ObsPreserving (fun s => runLevel (obsClass (α := α) label sh) args s) := by
  have h0 : Option.map (fun f => f args) (obsClass (α := α) label sh).init =
      if sh.hasInit then some (obsEventAt label StageTag.initStage) else none := by
    cases hb : sh.hasInit <;> simp [obsClass, hb]
  have hcomp := obsPreserving_comp
    (obsPreserving_comp
      (obsPreserving_comp (obsPreserving_runStage_opt sh.hasInit label StageTag.initStage)
        (obsPreserving_runStage_opt sh.hasInitPackets label StageTag.initPacketsStage))
      (obsPreserving_runStage_opt sh.hasInitPorts label StageTag.initPortsStage))
    (obsPreserving_runStage_opt sh.hasOnLoad label StageTag.onLoadStage)
  intro s
  have hrw : runLevel (obsClass (α := α) label sh) args s =
      runStage (if sh.hasOnLoad then some (obsEventAt label StageTag.onLoadStage) else none)
        (runStage (if sh.hasInitPorts then some (obsEventAt label StageTag.initPortsStage) else none)
          (runStage (if sh.hasInitPackets then some (obsEventAt label StageTag.initPacketsStage) else none)
            (runStage (if sh.hasInit then some (obsEventAt label StageTag.initStage) else none) s))) := by
    rw [runLevel_eq_runStage, h0]
    rfl
  simp only []
  rw [hrw]
  exact hcomp s

theorem obsPreserving_recursiveInit {α : Type} (ls : List (Nat × LevelShape)) (args : α) :
    ObsPreserving (fun s => recursiveInit (obsLevels (α := α) ls) args s) := by
  induction ls with
  | nil => simpa [recursiveInit, obsLevels] using obsPreserving_id
  | cons p rest ih =>
      have h := obsPreserving_comp ih (obsPreserving_runLevel (α := α) p.1 p.2 args)
      intro s
      have hrw : recursiveInit (obsLevels (α := α) (p :: rest)) args s =
          runLevel (obsClass (α := α) p.1 p.2) args (recursiveInit (obsLevels (α := α) rest) args s) := rfl
      simp only []
      rw [hrw]
      exact h s

/-- C9: the lifecycle entry point _init_ installs the two port tables as
empty dicts before entering the stage recursion, so every stage of every
level — including the most-base level's init — observes both tables
existing and empty (no bindPort having run yet), no matter what the
instance held before. -/
theorem initEntry_tables_empty {α : Type} (ls : List (Nat × LevelShape)) (args : α)
    (s : ObsState) :
    ∀ e ∈ (initEntry (obsLevels (α := α) ls) (baseVirtualNode_init args) s).obs,
      e ∈ s.obs ∨ (e.outTable = [] ∧ e.inTable = []) := by
  intro e he
  have h := (obsPreserving_recursiveInit (α := α) ls args
    { s with inst := { s.inst with outboundPortTable := [], inboundPortTable := [] } }).2 e he
  exact h

/-- A pre-used instance with junk in both tables and a stale observation. -/
def staleState : ObsState :=
  { inst := { instDict := [], outboundPortTable := [(.derivedClass 9, 3)],
              inboundPortTable := [(3, .derivedClass 9)] },
    obs := [] }

/-- Witness for C9: running _init_ on the demo hierarchy over an instance
whose tables held junk, every stage observation shows both tables empty. -/
theorem initEntry_tables_empty_witness :
    ({ level := 1, stage := StageTag.initStage, outTable := [], inTable := [] } : ObsEvent) ∈
      (initEntry (obsLevels (α := Nat) demoShapes) (baseVirtualNode_init 0) staleState).obs ∧
    (({ level := 1, stage := StageTag.initStage, outTable := [], inTable := [] } : ObsEvent) ∈
        staleState.obs ∨
      (({ level := 1, stage := StageTag.initStage, outTable := [], inTable := [] } : ObsEvent).outTable = [] ∧
        ({ level := 1, stage := StageTag.initStage, outTable := [], inTable := [] } : ObsEvent).inTable = [])) :=
  ⟨by decide,
   initEntry_tables_empty (α := Nat) demoShapes 0 staleState
     { level := 1, stage := StageTag.initStage, outTable := [], inTable := [] } (by decide)⟩

/-! ## The reference gestaltNode type (init and initPackets stages) -/

/-- Modelled from the spec: packets.pString — a text field; the packets
module is not part of this source file.  The spec gives templates an
ordered list of named, typed fields with a byte width; pString with no
length argument is a variable-width text field (width none). -/
def pString (name : String) (width : Option Nat) : PacketField :=
  { fieldName := name, kind := FieldKind.pString, width := width }

/-- Modelled from the spec: packets.unsignedInt — an unsigned integer field
of the given byte width. -/
def unsignedInt (name : String) (width : Nat) : PacketField :=
  { fieldName := name, kind := FieldKind.unsignedInt, width := some width }

/-- Modelled from the spec: packets.pList — a byte-list field of the given
width. -/
def pList (name : String) (width : Nat) : PacketField :=
  { fieldName := name, kind := FieldKind.pList, width := some width }

/-- Modelled from the spec: packets.template — a template built from a name
and an ordered field list. -/
def template (name : String) (fields : List PacketField) : Template :=
  { tname := name, fields := fields }

/-- The attributes gestaltNode.init and gestaltNode.initPackets write on the
node instance; `none` models an attribute that does not exist yet. -/
structure GNState : Type where
  bootPageSize : Option Nat
  statusResponsePacket : Option Template
  bootCommandRequestPacket : Option Template
  bootCommandResponsePacket : Option Template
  bootWriteRequestPacket : Option Template
  bootWriteResponsePacket : Option Template
  bootReadRequestPacket : Option Template
  bootReadResponsePacket : Option Template
  urlResponsePacket : Option Template
  setAddressRequestPacket : Option Template
  setAddressResponsePacket : Option Template
deriving DecidableEq

/-- The instance before any stage has run. -/
def gn0 : GNState :=
  { bootPageSize := none, statusResponsePacket := none, bootCommandRequestPacket := none,
    bootCommandResponsePacket := none, bootWriteRequestPacket := none,
    bootWriteResponsePacket := none, bootReadRequestPacket := none,
    bootReadResponsePacket := none, urlResponsePacket := none,
    setAddressRequestPacket := none, setAddressResponsePacket := none }

/-- gestaltNode.init: sets the bootloader page size constant (128 bytes). -/
def gestaltNode_init (s : GNState) : GNState :=
  { s with bootPageSize := some 128 }

/-- gestaltNode.initPackets: defines the packet templates.  Reading
self.bootPageSize on an instance that does not have the attribute raises
AttributeError in Python; the stage is therefore Option-valued and aborts
(returns none) in that case. -/
def gestaltNode_initPackets (s : GNState) : Option GNState :=
  match s.bootPageSize with
  | none => none
  | some pageSize =>
      some { s with
        statusResponsePacket := some (template ("statusResponse")
          [pString ("status") (some 1), unsignedInt ("appValidity") 1]),
        bootCommandRequestPacket := some (template ("bootCommandRequest")
          [unsignedInt ("commandCode") 1]),
        bootCommandResponsePacket := some (template ("bootCommandResponse")
          [unsignedInt ("responseCode") 1, unsignedInt ("pageNumber") 2]),
        bootWriteRequestPacket := some (template ("bootWriteRequest")
          [unsignedInt ("commandCode") 1, unsignedInt ("pageNumber") 2,
           pList ("writeData") pageSize]),
        bootWriteResponsePacket := some (template ("bootWriteResponse")
          [unsignedInt ("responseCode") 1, unsignedInt ("pageNumber") 2]),
        bootReadRequestPacket := some (template ("bootReadRequest")
          [unsignedInt ("pageNumber") 2]),
        bootReadResponsePacket := some (template ("bootReadResponse")
          [pList ("readData") pageSize]),
        urlResponsePacket := some (template ("urlResponse") [pString ("URL") none]),
        setAddressRequestPacket := some (template ("setAddressRequest")
          [pList ("setAddress") 2]),
        setAddressResponsePacket := some (template ("setAddressResponse")
          [pString ("URL") none]) }

/-- The byte width of a named field of a (possibly absent) template. -/
def templFieldWidth (t : Option Template) (fname : String) : Option (Option Nat) :=
  match t with
  | none => none
  | some t => (t.fields.find? (fun f => decide (f.fieldName = fname))).map (fun f => f.width)

/-- C8: gestaltNode.init establishes the 128-byte bootloader page size
constant, and the templates gestaltNode.initPackets then defines carry a
data field (writeData / readData) whose width is exactly the page-size
constant found on the instance; composing the stages in the lifecycle
order init-then-initPackets (C1's order theorem) yields both widths = 128,
while running initPackets before init aborts with an attribute error
because the constant does not yet exist. -/
theorem gestaltNode_pageSize_templates :
    (gestaltNode_init gn0).bootPageSize = some 128 ∧
    (∀ s : GNState,
      match s.bootPageSize, gestaltNode_initPackets s with
      | some n, some t =>
          t.bootWriteRequestPacket = some (template ("bootWriteRequest")
            [unsignedInt ("commandCode") 1, unsignedInt ("pageNumber") 2,
             pList ("writeData") n]) ∧
          t.bootReadResponsePacket = some (template ("bootReadResponse")
            [pList ("readData") n])
      | none, r => r = none
      | some _, none => False) ∧
    (∃ t, gestaltNode_initPackets (gestaltNode_init gn0) = some t ∧
      templFieldWidth t.bootWriteRequestPacket ("writeData") = some (some 128) ∧
      templFieldWidth t.bootReadResponsePacket ("readData") = some (some 128)) ∧
    gestaltNode_initPackets gn0 = none := by
  refine ⟨rfl, ?_, ?_, rfl⟩
  · intro s
    cases h : s.bootPageSize <;> simp [gestaltNode_initPackets, h]
  · exact ⟨_, rfl, by decide, by decide⟩

end PyGestalt
